import Mathlib

/-!
# Verification of the Kafka operator security / configuration core

Shallow embedding of `rust/crd/src/security.rs` and `rust/crd/src/lib.rs`
(stackable-kafka-operator).  Rust `Option` becomes `Option`, `String` becomes
`String`, `u16` ports become `Nat`, `BTreeMap` insertions with pairwise
distinct keys become association lists in insertion order, and the effect of
builder calls (`PodBuilder::add_volume`) becomes the list of added volumes.
-/

namespace KafkaOp

/-! ## Authentication classes (external type from stackable-operator commons;
the `Tls` variant carries the optional `client_cert_secret_class` override
that `security.rs` matches on). -/

inductive AuthenticationClassProvider where
  | tls (client_cert_secret_class : Option String)
  | other
deriving DecidableEq

structure AuthenticationClassSpec where
  provider : AuthenticationClassProvider
deriving DecidableEq

structure AuthenticationClass where
  spec : AuthenticationClassSpec
deriving DecidableEq

/-- Modelled from the spec: `ResolvedAuthenticationClasses` lives in
`rust/crd/src/authentication.rs`, which is not among the provided sources.
Per the spec it is "the resolved, validated set" of authentication classes,
with "at most one TLS-provider class present" and "first as canonical". -/
structure ResolvedAuthenticationClasses where
  classes : List AuthenticationClass
deriving DecidableEq

def AuthenticationClass.isTlsProvider (c : AuthenticationClass) : Bool :=
  match c.spec.provider with
  | .tls _ => true
  | .other => false

/-- Modelled from the spec: `get_tls_authentication_class` of
`rust/crd/src/authentication.rs` (not among the provided sources) returns the
first resolved class whose provider is TLS. -/
def ResolvedAuthenticationClasses.get_tls_authentication_class
    (r : ResolvedAuthenticationClasses) : Option AuthenticationClass :=
  r.classes.find? (fun c => c.isTlsProvider)

/-! ## `KafkaTlsSecurity` (security.rs) -/

structure KafkaTlsSecurity where
  resolved_authentication_classes : ResolvedAuthenticationClasses
  internal_secret_class : String
  server_secret_class : Option String
deriving DecidableEq

namespace KafkaTlsSecurity

-- ports (security.rs)
def CLIENT_PORT : Nat := 9092
def SECURE_CLIENT_PORT : Nat := 9093
def INTERNAL_PORT : Nat := 19092
def SECURE_INTERNAL_PORT : Nat := 19093
def CLIENT_PORT_NAME : String := "kafka"
def SECURE_CLIENT_PORT_NAME : String := "kafka-tls"

-- TLS store password and property keys (security.rs)
def SSL_STORE_PASSWORD : String := "changeit"
def CLIENT_SSL_KEYSTORE_LOCATION : String := "listener.name.client.ssl.keystore.location"
def CLIENT_SSL_KEYSTORE_PASSWORD : String := "listener.name.client.ssl.keystore.password"
def CLIENT_SSL_KEYSTORE_TYPE : String := "listener.name.client.ssl.keystore.type"
def CLIENT_SSL_TRUSTSTORE_LOCATION : String := "listener.name.client.ssl.truststore.location"
def CLIENT_SSL_TRUSTSTORE_PASSWORD : String := "listener.name.client.ssl.truststore.password"
def CLIENT_SSL_TRUSTSTORE_TYPE : String := "listener.name.client.ssl.truststore.type"
def CLIENT_AUTH_SSL_KEYSTORE_LOCATION : String := "listener.name.client_auth.ssl.keystore.location"
def CLIENT_AUTH_SSL_KEYSTORE_PASSWORD : String := "listener.name.client_auth.ssl.keystore.password"
def CLIENT_AUTH_SSL_KEYSTORE_TYPE : String := "listener.name.client_auth.ssl.keystore.type"
def CLIENT_AUTH_SSL_TRUSTSTORE_LOCATION : String := "listener.name.client_auth.ssl.truststore.location"
def CLIENT_AUTH_SSL_TRUSTSTORE_PASSWORD : String := "listener.name.client_auth.ssl.truststore.password"
def CLIENT_AUTH_SSL_TRUSTSTORE_TYPE : String := "listener.name.client_auth.ssl.truststore.type"
def CLIENT_AUTH_SSL_CLIENT_AUTH : String := "listener.name.client_auth.ssl.client.auth"
def INTER_BROKER_LISTENER_NAME : String := "inter.broker.listener.name"
def INTER_SSL_KEYSTORE_LOCATION : String := "listener.name.internal.ssl.keystore.location"
def INTER_SSL_KEYSTORE_PASSWORD : String := "listener.name.internal.ssl.keystore.password"
def INTER_SSL_KEYSTORE_TYPE : String := "listener.name.internal.ssl.keystore.type"
def INTER_SSL_TRUSTSTORE_LOCATION : String := "listener.name.internal.ssl.truststore.location"
def INTER_SSL_TRUSTSTORE_PASSWORD : String := "listener.name.internal.ssl.truststore.password"
def INTER_SSL_TRUSTSTORE_TYPE : String := "listener.name.internal.ssl.truststore.type"
def INTER_SSL_CLIENT_AUTH : String := "listener.name.internal.ssl.client.auth"

-- directories (security.rs)
def SYSTEM_TRUST_STORE_DIR : String := "/etc/pki/java/cacerts"
def STACKABLE_TLS_CERT_SERVER_MOUNT_DIR : String := "/stackable/tls_cert_server_mount"
def STACKABLE_TLS_CERT_SERVER_MOUNT_DIR_NAME : String := "tls-cert-server-mount"
def STACKABLE_TLS_KEYSTORE_SERVER_MOUNT_DIR : String := "/stackable/tls_keystore_server_mount"
def STACKABLE_TLS_KEYSTORE_SERVER_MOUNT_DIR_NAME : String := "tls-keystore-server-mount"
def STACKABLE_TLS_KEYSTORE_SERVER_DIR : String := "/stackable/tls_keystore_server"
def STACKABLE_TLS_KEYSTORE_SERVER_DIR_NAME : String := "tls-keystore-server"
def STACKABLE_TLS_KEYSTORE_INTERNAL_MOUNT_DIR : String := "/stackable/tls_keystore_internal_mount"
def STACKABLE_TLS_KEYSTORE_INTERNAL_MOUNT_DIR_NAME : String := "tls-keystore-internal-mount"
def STACKABLE_TLS_KEYSTORE_INTERNAL_DIR : String := "/stackable/tls_keystore_internal"
def STACKABLE_TLS_KEYSTORE_INTERNAL_DIR_NAME : String := "tls-keystore-internal"

/-- `tls_server_secret_class`: optional TLS secret class for external
client to server communication. -/
def tls_server_secret_class (s : KafkaTlsSecurity) : Option String :=
  s.server_secret_class

/-- `tls_client_authentication_class`: optional TLS `AuthenticationClass`. -/
def tls_client_authentication_class (s : KafkaTlsSecurity) : Option AuthenticationClass :=
  s.resolved_authentication_classes.get_tls_authentication_class

/-- `tls_enabled`: TLS encryption is on due to a provided server
`SecretClass` or a provided client `AuthenticationClass`. -/
def tls_enabled (s : KafkaTlsSecurity) : Bool :=
  s.tls_client_authentication_class.isSome || s.tls_server_secret_class.isSome

/-- `tls_internal_secret_class`: the internal `SecretClass`, with the empty
string mapped to `none`. -/
def tls_internal_secret_class (s : KafkaTlsSecurity) : Option String :=
  if s.internal_secret_class ≠ "" then some s.internal_secret_class else none

/-- `client_port`: secure client port when TLS is enabled, else plaintext. -/
def client_port (s : KafkaTlsSecurity) : Nat :=
  if s.tls_enabled then SECURE_CLIENT_PORT else CLIENT_PORT

/-- `client_port_name`: secure client port name when TLS is enabled. -/
def client_port_name (s : KafkaTlsSecurity) : String :=
  if s.tls_enabled then SECURE_CLIENT_PORT_NAME else CLIENT_PORT_NAME

/-- `internal_port`: secure internal port when the internal secret class is
set (non-empty), else plaintext internal port. -/
def internal_port (s : KafkaTlsSecurity) : Nat :=
  if s.tls_internal_secret_class.isSome then SECURE_INTERNAL_PORT else INTERNAL_PORT

/-- `import_keystore`: shell steps importing a secret-operator provided
keystore into a password-protected keystore in a writable empty dir. -/
def import_keystore (source_directory destination_directory : String) : List String :=
  [ "echo Importing " ++ source_directory ++ "/keystore.p12 to "
      ++ destination_directory ++ "/keystore.p12",
    "keytool -importkeystore -srckeystore " ++ source_directory
      ++ "/keystore.p12 -srcstoretype PKCS12 -srcstorepass \"\" -destkeystore "
      ++ destination_directory ++ "/keystore.p12 -deststoretype PKCS12 -deststorepass "
      ++ SSL_STORE_PASSWORD ++ " -noprompt" ]

/-- `import_truststore`: shell steps importing a secret-operator provided
truststore (alias "1") into a password-protected truststore under a fresh
alias in a writable empty dir. -/
def import_truststore (source_directory destination_directory : String) : List String :=
  [ "echo Importing " ++ source_directory ++ "/truststore.p12 to "
      ++ destination_directory ++ "/truststore.p12",
    "keytool -importkeystore -srckeystore " ++ source_directory
      ++ "/truststore.p12 -srcstoretype PKCS12 -srcstorepass \"\" -srcalias 1 -destkeystore "
      ++ destination_directory ++ "/truststore.p12 -deststoretype PKCS12 -deststorepass "
      ++ SSL_STORE_PASSWORD
      ++ " -destalias $(cat /proc/sys/kernel/random/uuid) -noprompt" ]

/-- `import_system_truststore`: shell steps importing the system truststore
into `destination_directory/truststore.p12`. -/
def import_system_truststore (destination_directory : String) : List String :=
  [ "echo Importing " ++ SYSTEM_TRUST_STORE_DIR ++ " to "
      ++ destination_directory ++ "/truststore.p12",
    "keytool -importkeystore -srckeystore " ++ SYSTEM_TRUST_STORE_DIR
      ++ " -srcstoretype jks -srcstorepass " ++ SSL_STORE_PASSWORD
      ++ " -destkeystore " ++ destination_directory
      ++ "/truststore.p12 -deststoretype pkcs12 -deststorepass " ++ SSL_STORE_PASSWORD
      ++ " -noprompt" ]

/-- `prepare_container_command_args`: (init) container commands generating
keystores and truststores depending on the TLS and authentication settings,
in the push order of `security.rs`. -/
def prepare_container_command_args (s : KafkaTlsSecurity) : List String :=
  (if s.tls_client_authentication_class.isSome then
      import_keystore STACKABLE_TLS_KEYSTORE_SERVER_MOUNT_DIR STACKABLE_TLS_KEYSTORE_SERVER_DIR
      ++ import_truststore STACKABLE_TLS_KEYSTORE_SERVER_MOUNT_DIR STACKABLE_TLS_KEYSTORE_SERVER_DIR
    else if s.tls_server_secret_class.isSome then
      import_system_truststore STACKABLE_TLS_KEYSTORE_SERVER_DIR
      ++ import_keystore STACKABLE_TLS_KEYSTORE_SERVER_MOUNT_DIR STACKABLE_TLS_KEYSTORE_SERVER_DIR
      ++ import_truststore STACKABLE_TLS_KEYSTORE_SERVER_MOUNT_DIR STACKABLE_TLS_KEYSTORE_SERVER_DIR
    else [])
  ++ (if s.tls_internal_secret_class.isSome then
      import_keystore STACKABLE_TLS_KEYSTORE_INTERNAL_MOUNT_DIR STACKABLE_TLS_KEYSTORE_INTERNAL_DIR
      ++ import_truststore STACKABLE_TLS_KEYSTORE_INTERNAL_MOUNT_DIR STACKABLE_TLS_KEYSTORE_INTERNAL_DIR
    else [])

/-- Modelled from the spec: `listener.rs` is not among the provided sources;
the inter-broker listener name rendered for `KafkaListenerName::Internal`
(also emitted as the literal `"internal"` by `lib.rs`). -/
def kafkaListenerNameInternal : String := "internal"

/-- `config_settings`: the `server.properties` entries of `security.rs`,
modelled as the association list of `BTreeMap::insert` calls in program
order (all inserted keys are pairwise distinct). -/
def config_settings (s : KafkaTlsSecurity) : List (String × String) :=
  (if s.tls_client_authentication_class.isSome then
      [ (CLIENT_AUTH_SSL_KEYSTORE_LOCATION, STACKABLE_TLS_KEYSTORE_SERVER_DIR ++ "/keystore.p12"),
        (CLIENT_AUTH_SSL_KEYSTORE_PASSWORD, SSL_STORE_PASSWORD),
        (CLIENT_AUTH_SSL_KEYSTORE_TYPE, "PKCS12"),
        (CLIENT_AUTH_SSL_TRUSTSTORE_LOCATION, STACKABLE_TLS_KEYSTORE_SERVER_DIR ++ "/truststore.p12"),
        (CLIENT_AUTH_SSL_TRUSTSTORE_PASSWORD, SSL_STORE_PASSWORD),
        (CLIENT_AUTH_SSL_TRUSTSTORE_TYPE, "PKCS12"),
        (CLIENT_AUTH_SSL_CLIENT_AUTH, "required") ]
    else if s.tls_server_secret_class.isSome then
      [ (CLIENT_SSL_KEYSTORE_LOCATION, STACKABLE_TLS_KEYSTORE_SERVER_DIR ++ "/keystore.p12"),
        (CLIENT_SSL_KEYSTORE_PASSWORD, SSL_STORE_PASSWORD),
        (CLIENT_SSL_KEYSTORE_TYPE, "PKCS12"),
        (CLIENT_SSL_TRUSTSTORE_LOCATION, STACKABLE_TLS_KEYSTORE_SERVER_DIR ++ "/truststore.p12"),
        (CLIENT_SSL_TRUSTSTORE_PASSWORD, SSL_STORE_PASSWORD),
        (CLIENT_SSL_TRUSTSTORE_TYPE, "PKCS12") ]
    else [])
  ++ (if s.tls_internal_secret_class.isSome then
      [ (INTER_SSL_KEYSTORE_LOCATION, STACKABLE_TLS_KEYSTORE_INTERNAL_DIR ++ "/keystore.p12"),
        (INTER_SSL_KEYSTORE_PASSWORD, SSL_STORE_PASSWORD),
        (INTER_SSL_KEYSTORE_TYPE, "PKCS12"),
        (INTER_SSL_TRUSTSTORE_LOCATION, STACKABLE_TLS_KEYSTORE_INTERNAL_DIR ++ "/truststore.p12"),
        (INTER_SSL_TRUSTSTORE_PASSWORD, SSL_STORE_PASSWORD),
        (INTER_SSL_TRUSTSTORE_TYPE, "PKCS12"),
        (INTER_SSL_CLIENT_AUTH, "required") ]
    else [])
  ++ [ (INTER_BROKER_LISTENER_NAME, kafkaListenerNameInternal) ]

/-- Key lookup in the association-list model of the `BTreeMap`. -/
def hasKey (c : List (String × String)) (k : String) : Bool :=
  c.any (fun p => p.1 == k)

/-- `get_tls_secret_class`: the `SecretClass` provided in an
`AuthenticationClass` for TLS, falling back to the server secret class. -/
def get_tls_secret_class (s : KafkaTlsSecurity) : Option String :=
  match s.tls_client_authentication_class with
  | some auth_class =>
    (match auth_class.spec.provider with
      | .tls o => o
      | .other => none).elim s.server_secret_class some
  | none => s.server_secret_class

/-- The source of a pod volume added by `security.rs`. -/
inductive VolumeSource where
  /-- `create_tls_volume`: ephemeral secret-operator volume (PEM). -/
  | secretOpPem (secret_class : String)
  /-- `create_tls_keystore_volume`: ephemeral secret-operator volume with
  `SecretFormat::TlsPkcs12`. -/
  | secretOpPkcs12 (secret_class : String)
  /-- `VolumeBuilder::with_empty_dir`. -/
  | emptyDir
deriving DecidableEq

structure PodVolume where
  name : String
  source : VolumeSource
deriving DecidableEq

/-- `add_volume_and_volume_mounts`: the sequence of `pod_builder.add_volume`
calls performed by `security.rs`, in program order. -/
def add_volume_and_volume_mounts (s : KafkaTlsSecurity) : List PodVolume :=
  (match s.get_tls_secret_class with
    | some tls_server_secret_class =>
      [ ⟨STACKABLE_TLS_CERT_SERVER_MOUNT_DIR_NAME, .secretOpPem tls_server_secret_class⟩,
        ⟨STACKABLE_TLS_KEYSTORE_SERVER_MOUNT_DIR_NAME, .secretOpPkcs12 tls_server_secret_class⟩,
        ⟨STACKABLE_TLS_KEYSTORE_SERVER_DIR_NAME, .emptyDir⟩ ]
    | none => [])
  ++ (match s.tls_internal_secret_class with
    | some tls_internal_secret_class =>
      [ ⟨STACKABLE_TLS_KEYSTORE_INTERNAL_MOUNT_DIR_NAME, .secretOpPkcs12 tls_internal_secret_class⟩,
        ⟨STACKABLE_TLS_KEYSTORE_INTERNAL_DIR_NAME, .emptyDir⟩ ]
    | none => [])

/-- The client-scope keystore/truststore property keys (both the plain
`client` listener scope and the `client_auth` listener scope). -/
def clientScopeStoreKeys : List String :=
  [ CLIENT_SSL_KEYSTORE_LOCATION, CLIENT_SSL_KEYSTORE_PASSWORD, CLIENT_SSL_KEYSTORE_TYPE,
    CLIENT_SSL_TRUSTSTORE_LOCATION, CLIENT_SSL_TRUSTSTORE_PASSWORD, CLIENT_SSL_TRUSTSTORE_TYPE,
    CLIENT_AUTH_SSL_KEYSTORE_LOCATION, CLIENT_AUTH_SSL_KEYSTORE_PASSWORD,
    CLIENT_AUTH_SSL_KEYSTORE_TYPE, CLIENT_AUTH_SSL_TRUSTSTORE_LOCATION,
    CLIENT_AUTH_SSL_TRUSTSTORE_PASSWORD, CLIENT_AUTH_SSL_TRUSTSTORE_TYPE ]

/-- The plain client-TLS keystore/truststore property keys. -/
def plainClientStoreKeys : List String :=
  [ CLIENT_SSL_KEYSTORE_LOCATION, CLIENT_SSL_KEYSTORE_PASSWORD, CLIENT_SSL_KEYSTORE_TYPE,
    CLIENT_SSL_TRUSTSTORE_LOCATION, CLIENT_SSL_TRUSTSTORE_PASSWORD, CLIENT_SSL_TRUSTSTORE_TYPE ]

/-- The client-auth-scope keystore/truststore property keys. -/
def clientAuthStoreKeys : List String :=
  [ CLIENT_AUTH_SSL_KEYSTORE_LOCATION, CLIENT_AUTH_SSL_KEYSTORE_PASSWORD,
    CLIENT_AUTH_SSL_KEYSTORE_TYPE, CLIENT_AUTH_SSL_TRUSTSTORE_LOCATION,
    CLIENT_AUTH_SSL_TRUSTSTORE_PASSWORD, CLIENT_AUTH_SSL_TRUSTSTORE_TYPE ]

/-- The internal-scope keystore/truststore property keys. -/
def internalStoreKeys : List String :=
  [ INTER_SSL_KEYSTORE_LOCATION, INTER_SSL_KEYSTORE_PASSWORD, INTER_SSL_KEYSTORE_TYPE,
    INTER_SSL_TRUSTSTORE_LOCATION, INTER_SSL_TRUSTSTORE_PASSWORD, INTER_SSL_TRUSTSTORE_TYPE ]

end KafkaTlsSecurity

open KafkaTlsSecurity

/-- C1: when `server_secret_class` is `None` and no TLS-provider
authentication class is resolved, `tls_enabled()` is false, `client_port()`
is the plaintext port 9092, and `config_settings()` contains no client-scope
keystore or truststore keys. -/
theorem c1_no_tls_means_plaintext_and_no_client_store_keys (s : KafkaTlsSecurity)
    (hserver : s.server_secret_class = none)
    (hauth : s.tls_client_authentication_class = none) :
    s.tls_enabled = false ∧ s.client_port = 9092 ∧
    ∀ k ∈ clientScopeStoreKeys, hasKey s.config_settings k = false := by
  have he : s.tls_enabled = false := by
    simp [KafkaTlsSecurity.tls_enabled, hauth, KafkaTlsSecurity.tls_server_secret_class, hserver]
  refine ⟨he, ?_, ?_⟩
  · simp [KafkaTlsSecurity.client_port, he, KafkaTlsSecurity.CLIENT_PORT]
  · intro k hk
    simp only [KafkaTlsSecurity.config_settings, hauth,
      KafkaTlsSecurity.tls_server_secret_class, hserver, Option.isSome_none,
      Bool.false_eq_true, if_false, List.nil_append]
    by_cases hi : s.tls_internal_secret_class.isSome
    · simp only [hi, if_true]
      fin_cases hk <;> decide
    · simp only [hi, if_false, Bool.false_eq_true, List.nil_append]
      fin_cases hk <;> decide

/-- C1 witness: the theorem applied to the configuration with no server
secret class, no authentication classes and internal class `"tls"`. -/
theorem c1_witness :
    (⟨⟨[]⟩, "tls", none⟩ : KafkaTlsSecurity).tls_enabled = false ∧
    (⟨⟨[]⟩, "tls", none⟩ : KafkaTlsSecurity).client_port = 9092 ∧
    hasKey (⟨⟨[]⟩, "tls", none⟩ : KafkaTlsSecurity).config_settings
      CLIENT_SSL_KEYSTORE_LOCATION = false := by
  obtain ⟨h1, h2, h3⟩ :=
    c1_no_tls_means_plaintext_and_no_client_store_keys ⟨⟨[]⟩, "tls", none⟩ rfl rfl
  exact ⟨h1, h2, h3 _ (by decide)⟩

/-- C7: `internal_port()` is the secure internal port 19093 iff
`internal_secret_class` is non-empty, and the plaintext internal port 19092
iff it is the empty string (the empty string opts out of internal TLS). -/
theorem c7_internal_port_secure_iff_nonempty_class (s : KafkaTlsSecurity) :
    (s.internal_port = 19093 ↔ s.internal_secret_class ≠ "") ∧
    (s.internal_port = 19092 ↔ s.internal_secret_class = "") := by
  by_cases h : s.internal_secret_class = "" <;>
    simp [KafkaTlsSecurity.internal_port, KafkaTlsSecurity.tls_internal_secret_class, h,
      KafkaTlsSecurity.SECURE_INTERNAL_PORT, KafkaTlsSecurity.INTERNAL_PORT]

/-- C8: `client_port()` does not depend on `internal_secret_class`: two
values agreeing on the resolved authentication classes and the server
secret class yield the same client port. -/
theorem c8_client_port_independent_of_internal_tls (s1 s2 : KafkaTlsSecurity)
    (hauth : s1.resolved_authentication_classes = s2.resolved_authentication_classes)
    (hserver : s1.server_secret_class = s2.server_secret_class) :
    s1.client_port = s2.client_port := by
  simp [KafkaTlsSecurity.client_port, KafkaTlsSecurity.tls_enabled,
    KafkaTlsSecurity.tls_client_authentication_class,
    KafkaTlsSecurity.tls_server_secret_class, hauth, hserver]

/-- C8 witness: toggling the internal secret class between empty and
non-empty leaves the client port unchanged. -/
theorem c8_witness :
    (⟨⟨[]⟩, "", some "tls"⟩ : KafkaTlsSecurity).client_port =
      (⟨⟨[]⟩, "tls", some "tls"⟩ : KafkaTlsSecurity).client_port :=
  c8_client_port_independent_of_internal_tls _ _ rfl rfl

/-- C3: `config_settings()` emits exactly one of the client branches (the
client-auth scope with the client-auth-required flag when a TLS client
authentication class is resolved — and then none of the plain client-TLS
keys; else the plain client-TLS keys only, when a server secret class is
present), independently the internal-scope keys plus the internal
client-auth-required key when internal TLS is enabled, and the inter-broker
listener name key in every case. -/
theorem c3_config_settings_branch_structure (s : KafkaTlsSecurity) :
    (s.tls_client_authentication_class.isSome = true →
      (∀ k ∈ clientAuthStoreKeys, hasKey s.config_settings k = true) ∧
      hasKey s.config_settings CLIENT_AUTH_SSL_CLIENT_AUTH = true ∧
      (∀ k ∈ plainClientStoreKeys, hasKey s.config_settings k = false)) ∧
    (s.tls_client_authentication_class = none → s.server_secret_class.isSome = true →
      (∀ k ∈ plainClientStoreKeys, hasKey s.config_settings k = true) ∧
      (∀ k ∈ clientAuthStoreKeys, hasKey s.config_settings k = false) ∧
      hasKey s.config_settings CLIENT_AUTH_SSL_CLIENT_AUTH = false) ∧
    (s.tls_internal_secret_class.isSome = true →
      (∀ k ∈ internalStoreKeys, hasKey s.config_settings k = true) ∧
      hasKey s.config_settings INTER_SSL_CLIENT_AUTH = true) ∧
    hasKey s.config_settings INTER_BROKER_LISTENER_NAME = true := by
  refine ⟨?_, ?_, ?_, ?_⟩
  · intro ha
    by_cases hi : s.tls_internal_secret_class.isSome <;>
      simp only [KafkaTlsSecurity.config_settings, ha, hi, Bool.false_eq_true, if_true,
        if_false, List.nil_append, List.append_nil] <;>
      exact ⟨fun k hk => by fin_cases hk <;> decide, by decide,
        fun k hk => by fin_cases hk <;> decide⟩
  · intro ha hs
    have ha' : s.tls_client_authentication_class.isSome = false := by simp [ha]
    by_cases hi : s.tls_internal_secret_class.isSome <;>
      simp only [KafkaTlsSecurity.config_settings, KafkaTlsSecurity.tls_server_secret_class,
        ha', hs, hi, Bool.false_eq_true, if_true, if_false, List.nil_append, List.append_nil] <;>
      exact ⟨fun k hk => by fin_cases hk <;> decide,
        fun k hk => by fin_cases hk <;> decide, by decide⟩
  · intro hi
    by_cases ha : s.tls_client_authentication_class.isSome <;>
      by_cases hs : s.server_secret_class.isSome <;>
      simp only [KafkaTlsSecurity.config_settings, KafkaTlsSecurity.tls_server_secret_class,
        ha, hs, hi, Bool.false_eq_true, if_true, if_false, List.nil_append, List.append_nil] <;>
      exact ⟨fun k hk => by fin_cases hk <;> decide, by decide⟩
  · by_cases ha : s.tls_client_authentication_class.isSome <;>
      by_cases hs : s.server_secret_class.isSome <;>
      by_cases hi : s.tls_internal_secret_class.isSome <;>
      simp only [KafkaTlsSecurity.config_settings, KafkaTlsSecurity.tls_server_secret_class,
        ha, hs, hi, Bool.false_eq_true, if_true, if_false, List.nil_append, List.append_nil] <;>
      decide

/-- The keystore-import steps of the external (server) scope. -/
def serverKeystoreSteps : List String :=
  import_keystore STACKABLE_TLS_KEYSTORE_SERVER_MOUNT_DIR STACKABLE_TLS_KEYSTORE_SERVER_DIR

/-- The truststore-import steps of the external (server) scope. -/
def serverTruststoreSteps : List String :=
  import_truststore STACKABLE_TLS_KEYSTORE_SERVER_MOUNT_DIR STACKABLE_TLS_KEYSTORE_SERVER_DIR

/-- The system-truststore import steps of the external (server) scope. -/
def systemTruststoreSteps : List String :=
  import_system_truststore STACKABLE_TLS_KEYSTORE_SERVER_DIR

/-- The keystore-import steps of the internal scope. -/
def internalKeystoreSteps : List String :=
  import_keystore STACKABLE_TLS_KEYSTORE_INTERNAL_MOUNT_DIR STACKABLE_TLS_KEYSTORE_INTERNAL_DIR

/-- The truststore-import steps of the internal scope. -/
def internalTruststoreSteps : List String :=
  import_truststore STACKABLE_TLS_KEYSTORE_INTERNAL_MOUNT_DIR STACKABLE_TLS_KEYSTORE_INTERNAL_DIR

/-- C2: `prepare_container_command_args()` decomposes into external-scope
steps followed by internal-scope steps; within each scope the keystore steps
precede the truststore steps; and the system-truststore steps, when present,
come first and occur only with server TLS enabled and no client
authentication class (hence no dedicated client authentication secret
class) resolved. -/
theorem c2_prepare_container_command_ordering (s : KafkaTlsSecurity) :
    ∃ ext intl,
      s.prepare_container_command_args = ext ++ intl ∧
      (ext = [] ∨
        ext = serverKeystoreSteps ++ serverTruststoreSteps ∨
        ext = systemTruststoreSteps ++ serverKeystoreSteps ++ serverTruststoreSteps) ∧
      (intl = [] ∨ intl = internalKeystoreSteps ++ internalTruststoreSteps) ∧
      ((∃ c ∈ systemTruststoreSteps, c ∈ s.prepare_container_command_args) →
        s.tls_server_secret_class.isSome = true ∧
        s.tls_client_authentication_class = none ∧
        ∃ rest, s.prepare_container_command_args = systemTruststoreSteps ++ rest) := by
  by_cases ha : s.tls_client_authentication_class.isSome <;>
    by_cases hs : s.tls_server_secret_class.isSome <;>
    by_cases hi : s.tls_internal_secret_class.isSome <;>
    simp only [KafkaTlsSecurity.prepare_container_command_args, ha, hs, hi,
      Bool.false_eq_true, if_true, if_false, List.nil_append, List.append_nil]
  case pos =>
    exact ⟨serverKeystoreSteps ++ serverTruststoreSteps,
      internalKeystoreSteps ++ internalTruststoreSteps, rfl, Or.inr (Or.inl rfl),
      Or.inr rfl, fun h => absurd h (by decide)⟩
  case neg =>
    exact ⟨serverKeystoreSteps ++ serverTruststoreSteps, [], (List.append_nil _).symm,
      Or.inr (Or.inl rfl), Or.inl rfl, fun h => absurd h (by decide)⟩
  case pos =>
    exact ⟨serverKeystoreSteps ++ serverTruststoreSteps,
      internalKeystoreSteps ++ internalTruststoreSteps, rfl, Or.inr (Or.inl rfl),
      Or.inr rfl, fun h => absurd h (by decide)⟩
  case neg =>
    exact ⟨serverKeystoreSteps ++ serverTruststoreSteps, [], (List.append_nil _).symm,
      Or.inr (Or.inl rfl), Or.inl rfl, fun h => absurd h (by decide)⟩
  case pos =>
    exact ⟨systemTruststoreSteps ++ serverKeystoreSteps ++ serverTruststoreSteps,
      internalKeystoreSteps ++ internalTruststoreSteps, rfl, Or.inr (Or.inr rfl),
      Or.inr rfl, fun _ => ⟨by trivial, by simpa using ha,
        serverKeystoreSteps ++ serverTruststoreSteps
          ++ (internalKeystoreSteps ++ internalTruststoreSteps), by rfl⟩⟩
  case neg =>
    exact ⟨systemTruststoreSteps ++ serverKeystoreSteps ++ serverTruststoreSteps, [],
      (List.append_nil _).symm, Or.inr (Or.inr rfl), Or.inl rfl,
      fun _ => ⟨by trivial, by simpa using ha,
        serverKeystoreSteps ++ serverTruststoreSteps, by rfl⟩⟩
  case pos =>
    exact ⟨[], internalKeystoreSteps ++ internalTruststoreSteps, rfl, Or.inl rfl,
      Or.inr rfl, fun h => absurd h (by decide)⟩
  case neg =>
    exact ⟨[], [], rfl, Or.inl rfl, Or.inl rfl, fun h => absurd h (by decide)⟩

/-- C4: `get_tls_secret_class()` is the resolved TLS authentication class's
client-certificate override secret class when present, else the server
secret class; when an override `o` is resolved, the external-scope keystore
volume is sourced from `o` and from no other secret class. -/
theorem c4_effective_client_secret_class (s : KafkaTlsSecurity) :
    (∀ ac o, s.tls_client_authentication_class = some ac →
        ac.spec.provider = .tls (some o) →
      s.get_tls_secret_class = some o ∧
      (⟨STACKABLE_TLS_KEYSTORE_SERVER_MOUNT_DIR_NAME,
          .secretOpPkcs12 o⟩ : PodVolume) ∈ s.add_volume_and_volume_mounts ∧
      ∀ sc, sc ≠ o →
        (⟨STACKABLE_TLS_KEYSTORE_SERVER_MOUNT_DIR_NAME,
            .secretOpPkcs12 sc⟩ : PodVolume) ∉ s.add_volume_and_volume_mounts) ∧
    (∀ ac, s.tls_client_authentication_class = some ac →
        ac.spec.provider = .tls none →
      s.get_tls_secret_class = s.server_secret_class) ∧
    (s.tls_client_authentication_class = none →
      s.get_tls_secret_class = s.server_secret_class) := by
  refine ⟨?_, ?_, ?_⟩
  · intro ac o hac hp
    have hg : s.get_tls_secret_class = some o := by
      simp [KafkaTlsSecurity.get_tls_secret_class, hac, hp]
    refine ⟨hg, ?_, ?_⟩
    · simp [KafkaTlsSecurity.add_volume_and_volume_mounts, hg]
    · intro sc hsc hmem
      rcases h2 : s.tls_internal_secret_class with _ | isc <;>
        simp [KafkaTlsSecurity.add_volume_and_volume_mounts, hg, h2,
          KafkaTlsSecurity.STACKABLE_TLS_KEYSTORE_SERVER_MOUNT_DIR_NAME,
          KafkaTlsSecurity.STACKABLE_TLS_CERT_SERVER_MOUNT_DIR_NAME,
          KafkaTlsSecurity.STACKABLE_TLS_KEYSTORE_SERVER_DIR_NAME,
          KafkaTlsSecurity.STACKABLE_TLS_KEYSTORE_INTERNAL_MOUNT_DIR_NAME,
          KafkaTlsSecurity.STACKABLE_TLS_KEYSTORE_INTERNAL_DIR_NAME] at hmem <;>
        exact hsc hmem
  · intro ac hac hp
    simp [KafkaTlsSecurity.get_tls_secret_class, hac, hp]
  · intro h
    simp [KafkaTlsSecurity.get_tls_secret_class, h]

/-- C4 witness: with a resolved TLS class overriding the client certificate
secret class to `"o"` next to `server_secret_class = Some "s"`, the
effective secret class and the external keystore volume use `"o"`, and no
external keystore volume uses `"s"`. -/
theorem c4_witness :
    (⟨⟨[⟨⟨.tls (some "o")⟩⟩]⟩, "tls", some "s"⟩ : KafkaTlsSecurity).get_tls_secret_class
        = some "o" ∧
    (⟨STACKABLE_TLS_KEYSTORE_SERVER_MOUNT_DIR_NAME, .secretOpPkcs12 "o"⟩ : PodVolume)
        ∈ (⟨⟨[⟨⟨.tls (some "o")⟩⟩]⟩, "tls", some "s"⟩ : KafkaTlsSecurity).add_volume_and_volume_mounts ∧
    (⟨STACKABLE_TLS_KEYSTORE_SERVER_MOUNT_DIR_NAME, .secretOpPkcs12 "s"⟩ : PodVolume)
        ∉ (⟨⟨[⟨⟨.tls (some "o")⟩⟩]⟩, "tls", some "s"⟩ : KafkaTlsSecurity).add_volume_and_volume_mounts := by
  obtain ⟨hm, -, -⟩ :=
    c4_effective_client_secret_class ⟨⟨[⟨⟨.tls (some "o")⟩⟩]⟩, "tls", some "s"⟩
  obtain ⟨h1, h2, h3⟩ := hm ⟨⟨.tls (some "o")⟩⟩ "o" rfl rfl
  exact ⟨h1, h2, h3 "s" (by decide)⟩

/-! ## `KafkaCluster` (lib.rs) -/

def TLS_DEFAULT_SECRET_CLASS : String := "tls"

structure TlsSecretClass where
  secret_class : String
deriving DecidableEq

structure ClientAuthenticationClass where
  authentication_class : String
deriving DecidableEq

structure GlobalKafkaConfig where
  tls : Option TlsSecretClass
  client_authentication : Option ClientAuthenticationClass
  internal_tls : Option TlsSecretClass
deriving DecidableEq

/-- `tls_secret_class_default`: the serde default of the `tls` field. -/
def tls_secret_class_default : Option TlsSecretClass :=
  some ⟨TLS_DEFAULT_SECRET_CLASS⟩

/-- `Default for GlobalKafkaConfig`; by `#[serde(default)]` also the value of
a `config` section omitted from the manifest. -/
def GlobalKafkaConfig.default : GlobalKafkaConfig :=
  ⟨tls_secret_class_default, none, none⟩

/-! Resource fragments.  `Quantity` and the storage selector are opaque
atomic leaves, embedded as `String`. -/

structure PvcConfig where
  capacity : Option String
  storage_class : Option String
  selectors : Option String
deriving DecidableEq

structure Storage where
  log_dirs : PvcConfig
deriving DecidableEq

structure CpuLimits where
  min : Option String
  max : Option String
deriving DecidableEq

structure MemoryLimits where
  limit : Option String
deriving DecidableEq

structure Resources where
  cpu : CpuLimits
  memory : MemoryLimits
  storage : Storage
deriving DecidableEq

/-- The merge of one atomic optional field, from the stackable-operator
`Merge` derive used by `lib.rs`: `self` (the higher-precedence fragment)
keeps a set field and falls back to `defaults` when unset. -/
def mergeOpt {α : Type} (a b : Option α) : Option α :=
  match a with
  | some v => some v
  | none => b

def PvcConfig.merge (a b : PvcConfig) : PvcConfig :=
  ⟨mergeOpt a.capacity b.capacity, mergeOpt a.storage_class b.storage_class,
    mergeOpt a.selectors b.selectors⟩

def Storage.merge (a b : Storage) : Storage :=
  ⟨a.log_dirs.merge b.log_dirs⟩

def CpuLimits.merge (a b : CpuLimits) : CpuLimits :=
  ⟨mergeOpt a.min b.min, mergeOpt a.max b.max⟩

def MemoryLimits.merge (a b : MemoryLimits) : MemoryLimits :=
  ⟨mergeOpt a.limit b.limit⟩

def Resources.merge (a b : Resources) : Resources :=
  ⟨a.cpu.merge b.cpu, a.memory.merge b.memory, a.storage.merge b.storage⟩

/-- `Resources::default()`: every field unset. -/
def Resources.empty : Resources :=
  ⟨⟨none, none⟩, ⟨none⟩, ⟨⟨none, none, none⟩⟩⟩

structure KafkaConfig where
  resources : Resources
deriving DecidableEq

/-- A broker rolegroup: replica count and the per-group config override
(the `CommonConfiguration` wrapper around `KafkaConfig` is flattened). -/
structure RoleGroup where
  replicas : Option Nat
  config : KafkaConfig
deriving DecidableEq

/-- The broker role: role-level config override and the group-name-to-group
map (a `HashMap`, embedded as an association list in declaration order with
pairwise distinct keys). -/
structure Role where
  config : KafkaConfig
  role_groups : List (String × RoleGroup)
deriving DecidableEq

structure ObjectMeta where
  name : Option String
  «namespace» : Option String
deriving DecidableEq

structure KafkaClusterSpec where
  version : Option String
  brokers : Option Role
  config : GlobalKafkaConfig
deriving DecidableEq

structure KafkaCluster where
  metadata : ObjectMeta
  spec : KafkaClusterSpec
deriving DecidableEq

inductive Error where
  | KafkaProductVersion (image_version : String)
  | NoNamespace
  | ObjectHasNoVersion
deriving DecidableEq

/-- Reference to a single `Pod` of a `KafkaCluster`. -/
structure KafkaPodRef where
  «namespace» : String
  role_group_service_name : String
  pod_name : String
deriving DecidableEq

namespace KafkaCluster

/-- `default_resources`: CPU and memory unset, 1Gi storage capacity. -/
def default_resources : Resources :=
  ⟨⟨none, none⟩, ⟨none⟩, ⟨⟨some "1Gi", none, none⟩⟩⟩

/-- `role_resources`: the broker role-level resources, defaulted. -/
def role_resources (k : KafkaCluster) : Resources :=
  (k.spec.brokers.map (fun brokers => brokers.config.resources)).getD Resources.empty

/-- `rolegroup_resources`: the rolegroup-level resources, defaulted. -/
def rolegroup_resources (k : KafkaCluster) (role_group : String) : Resources :=
  ((((k.spec.brokers.map (fun brokers => brokers.role_groups)).getD []).lookup
      role_group).map (fun role_group => role_group.config.resources)).getD Resources.empty

/-- `resources`: rolegroup fragment merged over the role fragment merged
over the defaults (group wins over role wins over default). -/
def resources (k : KafkaCluster) (role_group : String) : Resources :=
  Resources.merge (k.rolegroup_resources role_group)
    (Resources.merge (k.role_resources) default_resources)

/-- `client_tls_secret_class`: secret class for client encryption. -/
def client_tls_secret_class (k : KafkaCluster) : Option TlsSecretClass :=
  k.spec.config.tls

/-- `client_authentication_class`: authentication class for clients. -/
def client_authentication_class (k : KafkaCluster) : Option String :=
  k.spec.config.client_authentication.map (fun c => c.authentication_class)

/-- `internal_tls_secret_class`: secret class for internal encryption. -/
def internal_tls_secret_class (k : KafkaCluster) : Option TlsSecretClass :=
  k.spec.config.internal_tls

/-- `is_client_secure`: whether client connections are TLS encrypted. -/
def is_client_secure (k : KafkaCluster) : Bool :=
  k.client_tls_secret_class.isSome || k.client_authentication_class.isSome

/-- `image_version`: the configured docker image version. -/
def image_version (k : KafkaCluster) : Except Error String :=
  match k.spec.version with
  | some v => .ok v
  | none => .error .ObjectHasNoVersion

end KafkaCluster

/-- Rust `str::split('-')` on the character list of a string: the list of
segments between dashes (always non-empty, the empty string yields one
empty segment). -/
def splitDash : List Char → List (List Char)
  | [] => [[]]
  | c :: rest =>
    if c = '-' then [] :: splitDash rest
    else
      match splitDash rest with
      | s :: ss => (c :: s) :: ss
      | [] => [[c]]

/-- `product_version`: the part of the image version before the first dash,
signalling `KafkaProductVersion` if the split had no first element. -/
def KafkaCluster.product_version (k : KafkaCluster) : Except Error String :=
  match k.image_version with
  | .error e => .error e
  | .ok image_version =>
    match splitDash image_version.data with
    | s :: _ => .ok ⟨s⟩
    | [] => .error (.KafkaProductVersion image_version)

/-- The three-way precedence rule as the spec words it: the rolegroup value
if set, else the role value if set, else the default. -/
def threeWayOpt {α : Type} (rg role dflt : Option α) : Option α :=
  if rg.isSome then rg else if role.isSome then role else dflt

theorem mergeOpt_idem {α : Type} (a : Option α) : mergeOpt a a = a := by
  cases a <;> rfl

theorem mergeOpt_absorb {α : Type} (a b : Option α) :
    mergeOpt (mergeOpt a b) b = mergeOpt a b := by
  cases a <;> cases b <;> rfl

theorem mergeOpt_threeWay {α : Type} (a b c : Option α) :
    mergeOpt a (mergeOpt b c) = threeWayOpt a b c := by
  cases a <;> cases b <;> rfl

theorem Resources.merge_idem (r : Resources) : Resources.merge r r = r := by
  obtain ⟨⟨a, b⟩, ⟨c⟩, ⟨⟨d, e, f⟩⟩⟩ := r
  simp [Resources.merge, CpuLimits.merge, MemoryLimits.merge, Storage.merge,
    PvcConfig.merge, mergeOpt_idem]

theorem Resources.merge_absorb (x y : Resources) :
    Resources.merge (Resources.merge x y) y = Resources.merge x y := by
  obtain ⟨⟨a, b⟩, ⟨c⟩, ⟨⟨d, e, f⟩⟩⟩ := x
  obtain ⟨⟨a2, b2⟩, ⟨c2⟩, ⟨⟨d2, e2, f2⟩⟩⟩ := y
  simp [Resources.merge, CpuLimits.merge, MemoryLimits.merge, Storage.merge,
    PvcConfig.merge, mergeOpt_absorb]

/-- C5: the three-way merge of `resources()` yields, for every field, the
rolegroup value if set, else the role value if set, else the default
(1Gi storage capacity, everything else unset); re-merging the result with
the same lower layers, or with itself, changes nothing. -/
theorem c5_resources_three_way_merge (k : KafkaCluster) (g : String) :
    ((k.resources g).cpu.min
        = threeWayOpt (k.rolegroup_resources g).cpu.min (k.role_resources).cpu.min none) ∧
    ((k.resources g).cpu.max
        = threeWayOpt (k.rolegroup_resources g).cpu.max (k.role_resources).cpu.max none) ∧
    ((k.resources g).memory.limit
        = threeWayOpt (k.rolegroup_resources g).memory.limit
            (k.role_resources).memory.limit none) ∧
    ((k.resources g).storage.log_dirs.capacity
        = threeWayOpt (k.rolegroup_resources g).storage.log_dirs.capacity
            (k.role_resources).storage.log_dirs.capacity (some "1Gi")) ∧
    ((k.resources g).storage.log_dirs.storage_class
        = threeWayOpt (k.rolegroup_resources g).storage.log_dirs.storage_class
            (k.role_resources).storage.log_dirs.storage_class none) ∧
    ((k.resources g).storage.log_dirs.selectors
        = threeWayOpt (k.rolegroup_resources g).storage.log_dirs.selectors
            (k.role_resources).storage.log_dirs.selectors none) ∧
    Resources.merge (k.resources g) (k.resources g) = k.resources g ∧
    Resources.merge (k.resources g)
        (Resources.merge (k.role_resources) KafkaCluster.default_resources)
      = k.resources g := by
  refine ⟨?_, ?_, ?_, ?_, ?_, ?_, Resources.merge_idem _, Resources.merge_absorb _ _⟩ <;>
    simp [KafkaCluster.resources, Resources.merge, CpuLimits.merge, MemoryLimits.merge,
      Storage.merge, PvcConfig.merge, mergeOpt_threeWay, KafkaCluster.default_resources]

/-- C9: a `config` section left to its serde default (equivalently a `tls`
field left to its serde default) enables client TLS with the default secret
class `"tls"`; an explicit `tls: null` disables it. -/
theorem c9_client_tls_enabled_by_default (k : KafkaCluster) :
    ((k.spec.config = GlobalKafkaConfig.default ∨
        k.spec.config.tls = tls_secret_class_default) →
      k.client_tls_secret_class = some ⟨TLS_DEFAULT_SECRET_CLASS⟩ ∧
      k.is_client_secure = true) ∧
    (k.spec.config.tls = none →
      k.client_tls_secret_class = none ∧
      (k.spec.config.client_authentication = none → k.is_client_secure = false)) := by
  constructor
  · rintro (h | h) <;>
      simp [KafkaCluster.client_tls_secret_class, KafkaCluster.is_client_secure, h,
        GlobalKafkaConfig.default, tls_secret_class_default]
  · intro h
    refine ⟨by simp [KafkaCluster.client_tls_secret_class, h], fun h2 => ?_⟩
    simp [KafkaCluster.is_client_secure, KafkaCluster.client_tls_secret_class,
      KafkaCluster.client_authentication_class, h, h2]

/-- C9 witness: a cluster whose `config` is the serde default has client TLS
enabled with secret class `"tls"`. -/
theorem c9_witness :
    (⟨⟨some "simple-kafka", some "ns"⟩, ⟨some "abc", none, GlobalKafkaConfig.default⟩⟩
        : KafkaCluster).client_tls_secret_class = some ⟨"tls"⟩ ∧
    (⟨⟨some "simple-kafka", some "ns"⟩, ⟨some "abc", none, GlobalKafkaConfig.default⟩⟩
        : KafkaCluster).is_client_secure = true :=
  (c9_client_tls_enabled_by_default _).1 (Or.inl rfl)

theorem splitDash_cons (l : List Char) :
    ∃ t, splitDash l = (l.takeWhile (fun c => c != '-')) :: t := by
  induction l with
  | nil => exact ⟨[], rfl⟩
  | cons c rest ih =>
    by_cases hc : c = '-'
    · subst hc
      exact ⟨splitDash rest, by simp [splitDash, List.takeWhile_cons]⟩
    · obtain ⟨t, ht⟩ := ih
      refine ⟨t, ?_⟩
      simp [splitDash, hc, ht, List.takeWhile_cons]

/-- C10: with a version present, `product_version()` returns `Ok` with the
prefix of the image version before the first dash (the whole string when no
dash occurs); the `KafkaProductVersion` error branch is unreachable. -/
theorem c10_product_version_never_fails_on_split (k : KafkaCluster) :
    (∀ v, k.spec.version = some v →
      k.product_version = .ok ⟨v.data.takeWhile (fun c => c != '-')⟩) ∧
    (∀ iv, k.product_version ≠ .error (.KafkaProductVersion iv)) := by
  constructor
  · intro v hv
    obtain ⟨t, ht⟩ := splitDash_cons v.data
    simp [KafkaCluster.product_version, KafkaCluster.image_version, hv, ht]
  · intro iv h
    rcases hv : k.spec.version with _ | v
    · simp [KafkaCluster.product_version, KafkaCluster.image_version, hv] at h
    · obtain ⟨t, ht⟩ := splitDash_cons v.data
      simp [KafkaCluster.product_version, KafkaCluster.image_version, hv, ht] at h

/-- C10 witness: the product version of image version
`"2.8.1-stackable0.1.0"` is `"2.8.1"`. -/
theorem c10_witness :
    (⟨⟨some "simple-kafka", some "ns"⟩,
        ⟨some "2.8.1-stackable0.1.0", none, GlobalKafkaConfig.default⟩⟩
      : KafkaCluster).product_version = Except.ok "2.8.1" := by
  have h := (c10_product_version_never_fails_on_split
    ⟨⟨some "simple-kafka", some "ns"⟩,
      ⟨some "2.8.1-stackable0.1.0", none, GlobalKafkaConfig.default⟩⟩).1
    "2.8.1-stackable0.1.0" rfl
  exact h.trans (by rfl)

/-! ## Pod topology prediction (`pods`, lib.rs).  The `BTreeMap` that
`pods()` collects the rolegroups into orders keys bytewise
lexicographically; UTF-8 preserves code-point order, so the order is
embedded as lexicographic comparison of the code points. -/

def charListLe : List Char → List Char → Bool
  | [], _ => true
  | _ :: _, [] => false
  | a :: x, b :: y =>
    if a.toNat < b.toNat then true
    else if b.toNat < a.toNat then false
    else charListLe x y

def strLe (a b : String) : Bool :=
  charListLe a.data b.data

theorem charListLe_refl (x : List Char) : charListLe x x = true := by
  induction x with
  | nil => rfl
  | cons a x ih =>
    simp only [charListLe]
    rw [if_neg (by omega), if_neg (by omega)]
    exact ih

theorem charListLe_total (x y : List Char) :
    charListLe x y = true ∨ charListLe y x = true := by
  induction x generalizing y with
  | nil => exact Or.inl rfl
  | cons a x ih =>
    cases y with
    | nil => exact Or.inr rfl
    | cons b y2 =>
      rcases Nat.lt_trichotomy a.toNat b.toNat with h | h | h
      · left; simp only [charListLe]; rw [if_pos h]
      · rcases ih y2 with h2 | h2
        · left; simp only [charListLe]; rw [if_neg (by omega), if_neg (by omega)]; exact h2
        · right; simp only [charListLe]; rw [if_neg (by omega), if_neg (by omega)]; exact h2
      · right; simp only [charListLe]; rw [if_pos h]

theorem charListLe_not_lt_of_le {a b : Char} {x y : List Char}
    (h : charListLe (a :: x) (b :: y) = true) : ¬ b.toNat < a.toNat := by
  intro hh
  simp only [charListLe] at h
  rw [if_neg (by omega), if_pos hh] at h
  exact absurd h (by simp)

theorem charListLe_trans (x y z : List Char) (hxy : charListLe x y = true)
    (hyz : charListLe y z = true) : charListLe x z = true := by
  induction x generalizing y z with
  | nil => rfl
  | cons a x ih =>
    cases y with
    | nil => exact absurd hxy (by simp [charListLe])
    | cons b y2 =>
      cases z with
      | nil => exact absurd hyz (by simp [charListLe])
      | cons c z2 =>
        have hba := charListLe_not_lt_of_le hxy
        have hcb := charListLe_not_lt_of_le hyz
        rcases Nat.lt_trichotomy a.toNat c.toNat with h | h | h
        · simp only [charListLe]; rw [if_pos h]
        · simp only [charListLe]
          rw [if_neg (by omega), if_neg (by omega)]
          have hab : a.toNat = b.toNat := by omega
          have hbc : b.toNat = c.toNat := by omega
          simp only [charListLe] at hxy hyz
          rw [if_neg (by omega), if_neg (by omega)] at hxy
          rw [if_neg (by omega), if_neg (by omega)] at hyz
          exact ih y2 z2 hxy hyz
        · omega


theorem charListLe_antisymm (x y : List Char) (hxy : charListLe x y = true)
    (hyx : charListLe y x = true) : x = y := by
  induction x generalizing y with
  | nil =>
    cases y with
    | nil => rfl
    | cons b y2 => exact absurd hyx (by simp [charListLe])
  | cons a x ih =>
    cases y with
    | nil => exact absurd hxy (by simp [charListLe])
    | cons b y2 =>
      have hba := charListLe_not_lt_of_le hxy
      have hab := charListLe_not_lt_of_le hyx
      have heq : a.toNat = b.toNat := by omega
      have hc : a = b := by
        have hv : a.val = b.val := by
          unfold Char.toNat at heq
          exact UInt32.toNat.inj heq
        exact Char.ext hv
      subst hc
      simp only [charListLe] at hxy hyx
      rw [if_neg (by omega), if_neg (by omega)] at hxy
      rw [if_neg (by omega), if_neg (by omega)] at hyx
      rw [ih y2 hxy hyx]

theorem strLe_total (a b : String) : strLe a b = true ∨ strLe b a = true :=
  charListLe_total a.data b.data

theorem strLe_trans (a b c : String) (h1 : strLe a b = true) (h2 : strLe b c = true) :
    strLe a c = true :=
  charListLe_trans a.data b.data c.data h1 h2

theorem strLe_antisymm (a b : String) (h1 : strLe a b = true) (h2 : strLe b a = true) :
    a = b :=
  String.ext (charListLe_antisymm a.data b.data h1 h2)

/-- Key order on rolegroup entries: the `BTreeMap` order of the group name. -/
def KeyLe (p q : String × RoleGroup) : Prop :=
  strLe p.1 q.1 = true

instance : DecidableRel KeyLe := fun p q => by
  unfold KeyLe; infer_instance

/-- Insertion into a key-sorted list of rolegroup entries. -/
def insertSorted (p : String × RoleGroup) :
    List (String × RoleGroup) → List (String × RoleGroup)
  | [] => [p]
  | q :: rest => if strLe p.1 q.1 then p :: q :: rest else q :: insertSorted p rest

/-- Sorting rolegroup entries by group name: the collection of the
rolegroup map into a `BTreeMap` performed by `pods()`. -/
def sortByKey : List (String × RoleGroup) → List (String × RoleGroup)
  | [] => []
  | p :: rest => insertSorted p (sortByKey rest)

theorem insertSorted_perm (p : String × RoleGroup) (l : List (String × RoleGroup)) :
    List.Perm (insertSorted p l) (p :: l) := by
  induction l with
  | nil => exact List.Perm.refl _
  | cons q rest ih =>
    by_cases h : strLe p.1 q.1
    · simp only [insertSorted, h, if_true]
      exact List.Perm.refl _
    · simp only [insertSorted, h, if_false]
      exact List.Perm.trans (ih.cons q) (List.Perm.swap p q rest)

theorem sortByKey_perm (l : List (String × RoleGroup)) :
    List.Perm (sortByKey l) l := by
  induction l with
  | nil => exact List.Perm.refl _
  | cons p rest ih =>
    exact List.Perm.trans (insertSorted_perm p (sortByKey rest)) (ih.cons p)

theorem insertSorted_pairwise (p : String × RoleGroup)
    (l : List (String × RoleGroup)) (hl : l.Pairwise KeyLe) :
    (insertSorted p l).Pairwise KeyLe := by
  induction l with
  | nil => simp [insertSorted]
  | cons q rest ih =>
    obtain ⟨hq, hrest⟩ := List.pairwise_cons.mp hl
    by_cases h : strLe p.1 q.1
    · simp only [insertSorted, h, if_true]
      refine List.pairwise_cons.mpr ⟨?_, hl⟩
      intro x hx
      rcases List.mem_cons.mp hx with rfl | hx2
      · exact h
      · exact strLe_trans _ _ _ h (hq x hx2)
    · have hqp : strLe q.1 p.1 = true := (strLe_total p.1 q.1).resolve_left h
      simp only [insertSorted, h, if_false]
      refine List.pairwise_cons.mpr ⟨?_, ih hrest⟩
      intro x hx
      have hx2 : x ∈ p :: rest := (insertSorted_perm p rest).mem_iff.mp hx
      rcases List.mem_cons.mp hx2 with rfl | hx3
      · exact hqp
      · exact hq x hx3

theorem sortByKey_pairwise (l : List (String × RoleGroup)) :
    (sortByKey l).Pairwise KeyLe := by
  induction l with
  | nil => simp [sortByKey]
  | cons p rest ih => exact insertSorted_pairwise p (sortByKey rest) ih

theorem eq_of_perm_pairwise_nodup_keys :
    ∀ {l1 l2 : List (String × RoleGroup)}, List.Perm l1 l2 →
      l1.Pairwise KeyLe → l2.Pairwise KeyLe → (l1.map Prod.fst).Nodup → l1 = l2 := by
  intro l1
  induction l1 with
  | nil =>
    intro l2 hp _ _ _
    exact (List.Perm.eq_nil hp.symm).symm
  | cons p t1 ih =>
    intro l2 hp h1 h2 hnd
    cases l2 with
    | nil => exact absurd (List.Perm.eq_nil hp) (by simp)
    | cons q t2 =>
      have hpq : p = q := by
        by_contra hne
        have hpin : p ∈ q :: t2 := hp.mem_iff.mp (List.mem_cons_self p t1)
        have hqin : q ∈ p :: t1 := hp.symm.mem_iff.mp (List.mem_cons_self q t2)
        rcases List.mem_cons.mp hpin with h | hpint2
        · exact hne h
        rcases List.mem_cons.mp hqin with h | hqint1
        · exact hne h.symm
        have hle1 : KeyLe p q := (List.pairwise_cons.mp h1).1 q hqint1
        have hle2 : KeyLe q p := (List.pairwise_cons.mp h2).1 p hpint2
        have hkey : p.1 = q.1 := strLe_antisymm _ _ hle1 hle2
        have hin : p.1 ∈ t1.map Prod.fst := by
          rw [hkey]
          exact List.mem_map_of_mem Prod.fst hqint1
        simp only [List.map_cons] at hnd
        exact (List.nodup_cons.mp hnd).1 hin
      subst hpq
      have ht : List.Perm t1 t2 := hp.cons_inv
      simp only [List.map_cons] at hnd
      rw [ih ht (List.pairwise_cons.mp h1).2 (List.pairwise_cons.mp h2).2
        (List.nodup_cons.mp hnd).2]

/-- Modelled from the spec and the external crate: `RoleGroupRef::object_name`
renders `{cluster-name}-{role}-{group}`, with `KafkaRole::Broker` serialized
as `"broker"`. -/
def broker_rolegroup_object_name (k : KafkaCluster) (group_name : String) : String :=
  (k.metadata.name.getD "") ++ "-broker-" ++ group_name

/-- The broker rolegroups of the cluster (empty when no broker role). -/
def brokerGroups (k : KafkaCluster) : List (String × RoleGroup) :=
  match k.spec.brokers with
  | some brokers => brokers.role_groups
  | none => []

/-- The pod references contributed by one rolegroup: one per ordinal in
`0..replicas` (replicas defaulted to 0). -/
def groupPods (k : KafkaCluster) (ns : String) (p : String × RoleGroup) :
    List KafkaPodRef :=
  (List.range (p.2.replicas.getD 0)).map (fun i =>
    ⟨ns, broker_rolegroup_object_name k p.1,
      broker_rolegroup_object_name k p.1 ++ "-" ++ toString i⟩)

/-- `pods`: all pods expected to form the cluster, the rolegroups collected
into a `BTreeMap` (key-sorted) first; fails without a namespace. -/
def KafkaCluster.pods (k : KafkaCluster) : Except Error (List KafkaPodRef) :=
  match k.metadata.«namespace» with
  | none => .error .NoNamespace
  | some ns => .ok ((sortByKey (brokerGroups k)).flatMap (groupPods k ns))

theorem broker_rolegroup_object_name_inj (k : KafkaCluster) (g1 g2 : String)
    (h : broker_rolegroup_object_name k g1 = broker_rolegroup_object_name k g2) :
    g1 = g2 := by
  have hd := congrArg String.data h
  simp only [broker_rolegroup_object_name, String.data_append] at hd
  exact String.ext (List.append_cancel_left hd)

theorem filter_flatMap_groupPods (k : KafkaCluster) (ns g : String) (rg : RoleGroup)
    (l : List (String × RoleGroup)) (hmem : (g, rg) ∈ l)
    (hnd : (l.map Prod.fst).Nodup) :
    (l.flatMap (groupPods k ns)).filter
        (fun p => p.role_group_service_name == broker_rolegroup_object_name k g)
      = groupPods k ns (g, rg) := by
  induction l with
  | nil => cases hmem
  | cons q rest ih =>
    rw [List.flatMap_cons, List.filter_append]
    simp only [List.map_cons] at hnd
    have hnd1 := (List.nodup_cons.mp hnd).1
    have hnd2 := (List.nodup_cons.mp hnd).2
    rcases List.mem_cons.mp hmem with heq | hmemrest
    · have hfull : (groupPods k ns q).filter
          (fun p => p.role_group_service_name == broker_rolegroup_object_name k g)
            = groupPods k ns q := by
        refine List.filter_eq_self.mpr ?_
        intro a ha
        simp only [groupPods] at ha
        obtain ⟨i, hi, rfl⟩ := List.mem_map.mp ha
        simp [← heq]
      have hrest : (rest.flatMap (groupPods k ns)).filter
          (fun p => p.role_group_service_name == broker_rolegroup_object_name k g)
            = [] := by
        refine List.filter_eq_nil_iff.mpr ?_
        intro a ha
        obtain ⟨q2, hq2, ha2⟩ := List.mem_flatMap.mp ha
        simp only [groupPods] at ha2
        obtain ⟨i, hi, rfl⟩ := List.mem_map.mp ha2
        simp only [beq_iff_eq]
        intro habs
        have hkey : q2.1 = g := broker_rolegroup_object_name_inj k q2.1 g habs
        apply hnd1
        have : q2.1 ∈ rest.map Prod.fst := List.mem_map_of_mem Prod.fst hq2
        rw [hkey] at this
        rw [← heq]
        exact this
      rw [hfull, hrest, List.append_nil, ← heq]
    · have hqne : q.1 ≠ g := by
        intro hq
        apply hnd1
        have : (g, rg).1 ∈ rest.map Prod.fst := List.mem_map_of_mem Prod.fst hmemrest
        rw [hq]
        exact this
      have hq0 : (groupPods k ns q).filter
          (fun p => p.role_group_service_name == broker_rolegroup_object_name k g)
            = [] := by
        refine List.filter_eq_nil_iff.mpr ?_
        intro a ha
        simp only [groupPods] at ha
        obtain ⟨i, hi, rfl⟩ := List.mem_map.mp ha
        simp only [beq_iff_eq]
        intro habs
        exact hqne (broker_rolegroup_object_name_inj k q.1 g habs)
      rw [hq0, List.nil_append]
      exact ih hmemrest hnd2

/-- C6: `pods()` fails exactly when the namespace is absent, with
`NoNamespace`; otherwise it enumerates the rolegroups in sorted key order
(a permutation of the declared groups, and invariant under reordering the
declaration when group names are distinct), emitting for each group one pod
reference per ordinal in `0..replicas`. -/
theorem c6_pods_sorted_enumeration (k : KafkaCluster) :
    (k.pods = .error .NoNamespace ↔ k.metadata.«namespace» = none) ∧
    (∀ e, k.pods = .error e → e = .NoNamespace) ∧
    (∀ ns, k.metadata.«namespace» = some ns →
      k.pods = .ok ((sortByKey (brokerGroups k)).flatMap (groupPods k ns)) ∧
      (sortByKey (brokerGroups k)).Pairwise KeyLe ∧
      List.Perm (sortByKey (brokerGroups k)) (brokerGroups k)) ∧
    (∀ gs2, List.Perm (brokerGroups k) gs2 →
      ((brokerGroups k).map Prod.fst).Nodup →
      sortByKey gs2 = sortByKey (brokerGroups k)) ∧
    (∀ ns g rg l, k.metadata.«namespace» = some ns → k.pods = .ok l →
      (g, rg) ∈ brokerGroups k → ((brokerGroups k).map Prod.fst).Nodup →
      l.filter (fun p => p.role_group_service_name == broker_rolegroup_object_name k g)
        = (List.range (rg.replicas.getD 0)).map (fun i =>
            ⟨ns, broker_rolegroup_object_name k g,
              broker_rolegroup_object_name k g ++ "-" ++ toString i⟩)) := by
  refine ⟨?_, ?_, ?_, ?_, ?_⟩
  · rcases hns : k.metadata.«namespace» with _ | ns <;>
      simp [KafkaCluster.pods, hns]
  · intro e he
    rcases hns : k.metadata.«namespace» with _ | ns <;>
      simp [KafkaCluster.pods, hns] at he <;> simp [he]
  · intro ns hns
    exact ⟨by simp [KafkaCluster.pods, hns], sortByKey_pairwise _, sortByKey_perm _⟩
  · intro gs2 hperm hnd
    have hnd2 : (gs2.map Prod.fst).Nodup := ((hperm.map Prod.fst).nodup_iff).mp hnd
    have hnds : ((sortByKey gs2).map Prod.fst).Nodup :=
      (((sortByKey_perm gs2).map Prod.fst).nodup_iff).mpr hnd2
    exact eq_of_perm_pairwise_nodup_keys
      (((sortByKey_perm gs2).trans hperm.symm).trans (sortByKey_perm (brokerGroups k)).symm)
      (sortByKey_pairwise gs2) (sortByKey_pairwise (brokerGroups k)) hnds
  · intro ns g rg l hns hok hg hnd
    have hl : l = (sortByKey (brokerGroups k)).flatMap (groupPods k ns) := by
      simp [KafkaCluster.pods, hns] at hok
      exact hok.symm
    subst hl
    have hmem : (g, rg) ∈ sortByKey (brokerGroups k) :=
      (sortByKey_perm (brokerGroups k)).mem_iff.mpr hg
    have hnds : ((sortByKey (brokerGroups k)).map Prod.fst).Nodup :=
      (((sortByKey_perm (brokerGroups k)).map Prod.fst).nodup_iff).mpr hnd
    exact filter_flatMap_groupPods k ns g rg (sortByKey (brokerGroups k)) hmem hnds

/-- C6 witness: a single rolegroup `"a"` with `replicas = 3` yields exactly
the pods with ordinals 0, 1, 2. -/
theorem c6_witness :
    (⟨⟨some "simple-kafka", some "ns"⟩,
        ⟨some "abc",
          some ⟨⟨Resources.empty⟩, [("a", ⟨some 3, ⟨Resources.empty⟩⟩)]⟩,
          GlobalKafkaConfig.default⟩⟩ : KafkaCluster).pods
      = Except.ok
          [ ⟨"ns", "simple-kafka-broker-a", "simple-kafka-broker-a-0"⟩,
            ⟨"ns", "simple-kafka-broker-a", "simple-kafka-broker-a-1"⟩,
            ⟨"ns", "simple-kafka-broker-a", "simple-kafka-broker-a-2"⟩ ] := by
  have h := ((c6_pods_sorted_enumeration
    ⟨⟨some "simple-kafka", some "ns"⟩,
      ⟨some "abc",
        some ⟨⟨Resources.empty⟩, [("a", ⟨some 3, ⟨Resources.empty⟩⟩)]⟩,
        GlobalKafkaConfig.default⟩⟩).2.2.1 "ns" rfl).1
  exact h.trans (by rfl)

end KafkaOp
